import Mathlib

/-!
Shallow embedding of `src/stopwatch.py` (class `Stopwatch`).

Timestamps (Python `datetime` objects) are modelled as integers; the wall
clock is passed to each operation as an explicit `now : Int` argument.
Durations (Python `timedelta`) are the integer difference of timestamps.
`None` becomes `Option.none`; Python truthiness of a `datetime` field is
exactly "is not None" (datetimes are always truthy), and truthiness of a
list or string is non-emptiness, so the option/emptiness tests below match
the source's `if not ...` checks.  `start` can raise, so it returns
`Except String Stopwatch`; the other mutators are total.  `print`ed notices
are returned as `Option String` values.  The matplotlib/pandas rendering in
`display_laps` is modelled by the data it computes: which entries are
selected, and the x-coordinates handed to the plot; the unguarded
`x[1] - self.start_time` subtraction (a `TypeError` when `start_time` is
`None`) is modelled by an `Option`-valued computation.
-/

/-- State of a `Stopwatch` instance: the three attributes set by
`__init__`. -/
structure Stopwatch where
  start_time : Option Int
  times : List (String × Int)
  stop_time : Option Int
  deriving Repr, DecidableEq

namespace Stopwatch

/-- The field values `__init__` assigns before the `auto_start` check:
`start_time = None`, `times = []`, `stop_time = None`. -/
def initState : Stopwatch := ⟨none, [], none⟩

/-- `reset`: the source re-runs `__init__(auto_start=False)`, which just
reassigns the three fields to their defaults. -/
def reset (_s : Stopwatch) : Stopwatch := initState

/-- The message of the exception `start` raises. -/
def alreadyRunningOrUsedMsg : String :=
  "Please reset timer using .reset() or set force_reset=True."

/-- `start(force_reset)`: raise if `self.times` is non-empty and
`force_reset` is false; otherwise reset when `force_reset` is true, then
record `now` as `start_time` and append `("Start", now)`. -/
def start (s : Stopwatch) (now : Int) (force_reset : Bool := true) :
    Except String Stopwatch :=
  if s.times ≠ [] ∧ force_reset = false then
    Except.error alreadyRunningOrUsedMsg
  else
    let s1 := if force_reset then s.reset else s
    let s2 := { s1 with start_time := some now }
    Except.ok { s2 with times := s2.times ++ [("Start", now)] }

/-- `__init__(auto_start)`: zero the fields, then call `start()` (with its
default `force_reset=True`, which never raises) when `auto_start` is
true. -/
def construct (auto_start : Bool) (now : Int) : Stopwatch :=
  if auto_start then
    match initState.start now true with
    | Except.ok s => s
    | Except.error _ => initState
  else initState

/-- `lap(label)`: `if not label` (i.e. `label` is `None` or the empty
string) synthesize `"Lap" + len(self.times)`, then append the entry with
the current timestamp. -/
def lap (s : Stopwatch) (now : Int) (label : Option String := none) :
    Stopwatch :=
  let lbl :=
    match label with
    | none => "Lap" ++ toString s.times.length
    | some l => if l = "" then "Lap" ++ toString s.times.length else l
  { s with times := s.times ++ [(lbl, now)] }

/-- `stop()`: when `start_time` is unset, print "Timer not started." and
return unchanged; otherwise record `now` as `stop_time` and append
`("Stop", now)`.  The second component is the printed notice, if any. -/
def stop (s : Stopwatch) (now : Int) : Stopwatch × Option String :=
  match s.start_time with
  | none => (s, some "Timer not started.")
  | some _ =>
      let s1 := { s with stop_time := some now }
      ({ s1 with times := s1.times ++ [("Stop", now)] }, none)

/-- `elapsed_time_()`: `stop_time - start_time` when both are set (the
source tests `stop_time` first), otherwise the implicit `None` return. -/
def elapsed_time_ (s : Stopwatch) : Option Int :=
  match s.stop_time, s.start_time with
  | some b, some a => some (b - a)
  | _, _ => none

end Stopwatch

/-- Outcome of `display_laps`, by the data it computes:
`noTimes` is the early "No times to display." return; `typeError` is the
Python `TypeError` raised by `entry_timestamp - None` when
`mark_elapsed_time` is true and `start_time` is `None` (reached only if the
selected list is non-empty); `rendered entries xs` is the elapsed-time
mode, plotting the selected `entries` at x-coordinates `xs` (seconds from
`start_time`); `renderedRaw entries` is the raw-timestamp mode, plotting
`entries` at their own timestamps. -/
inductive DisplayResult where
  | noTimes
  | typeError
  | rendered (entries : List (String × Int)) (xs : List Int)
  | renderedRaw (entries : List (String × Int))
  deriving Repr, DecidableEq

/-- The entries a `DisplayResult` actually plotted/tabulated, when it did. -/
def DisplayResult.entries : DisplayResult → Option (List (String × Int))
  | .rendered es _ => some es
  | .renderedRaw es => some es
  | _ => none

namespace Stopwatch

/-- The x-coordinates of elapsed-time mode:
`[(x[1] - self.start_time).total_seconds() for x in times]`.  The
subtraction needs `start_time` to be set, so the computation fails
(`none`) exactly when the comprehension evaluates the subtraction with
`start_time = None` — i.e. when `times` is non-empty and `start_time`
absent. -/
def xCoords (start_time : Option Int) : List (String × Int) → Option (List Int)
  | [] => some []
  | e :: es =>
      match start_time with
      | none => none
      | some st =>
          match xCoords start_time es with
          | none => none
          | some xs => some ((e.2 - st) :: xs)

/-- `display_laps`: early-return on empty `times`; select all entries or
drop the last (`self.times[:-1]`) per `show_stop`; compute x-coordinates
per `mark_elapsed_time`.  `figsize`, `annotate`, `verbose`, `vlines` and
`styles` only affect cosmetics of the plot and whether the same data is
also shown as a table; they do not change the state or the computed data.
The first component of the result is the stopwatch after the call. -/
def display_laps (s : Stopwatch)
    (figsize : Nat × Nat := (8, 4))
    (mark_elapsed_time : Bool := true)
    (show_stop : Bool := true)
    (annotate : Bool := true)
    (verbose : Bool := true)
    (vlines : Bool := true)
    (styles : List String := ["ggplot", "seaborn-talk"]) :
    Stopwatch × DisplayResult :=
  if s.times = [] then
    (s, DisplayResult.noTimes)
  else
    let times := if show_stop then s.times else s.times.dropLast
    if mark_elapsed_time then
      match xCoords s.start_time times with
      | none => (s, DisplayResult.typeError)
      | some xs => (s, DisplayResult.rendered times xs)
    else
      (s, DisplayResult.renderedRaw times)

end Stopwatch

/-- One public call against a `Stopwatch`. -/
inductive Cmd where
  | start (force_reset : Bool)
  | lap (label : Option String)
  | stop
  | reset
  deriving Repr, DecidableEq

/-- The state after one call at wall-clock time `now`.  A raising `start`
leaves the state as it was (the exception fires before any mutation). -/
def step (s : Stopwatch) (c : Cmd) (now : Int) : Stopwatch :=
  match c with
  | .start fr =>
      match s.start now fr with
      | Except.ok s2 => s2
      | Except.error _ => s
  | .lap lbl => s.lap now lbl
  | .stop => (s.stop now).1
  | .reset => s.reset

/-- States reachable through the public interface: a constructor call
followed by any sequence of `start`/`lap`/`stop`/`reset` calls. -/
inductive Reachable : Stopwatch → Prop where
  | construct (auto_start : Bool) (now : Int) :
      Reachable (Stopwatch.construct auto_start now)
  | step (s : Stopwatch) (c : Cmd) (now : Int) :
      Reachable s → Reachable (step s c now)

/-- A watch constructed with `auto_start=False` (at clock 0) on which
`lap()` was then called at clock 0: its `times` is non-empty while
`start_time` is still absent. -/
def unstartedLapState : Stopwatch :=
  step (Stopwatch.construct false 0) (Cmd.lap none) 0

/-- A stopped session with four recorded entries (the spec's walk-through:
start at 0, unlabeled lap at 1, labeled lap at 2, stop at 3). -/
def fourEntry : Stopwatch :=
  ⟨some 0, [("Start", 0), ("Lap1", 1), ("Checkpoint", 2), ("Stop", 3)], some 3⟩

/-- `xCoords` succeeds whenever `start_time` is set, producing the
per-entry differences from the start. -/
theorem xCoords_of_start_set (t : Int) (ts : List (String × Int)) :
    Stopwatch.xCoords (some t) ts = some (ts.map (fun e => e.2 - t)) := by
  induction ts with
  | nil => rfl
  | cons e es ih => simp [Stopwatch.xCoords, ih]

/-- The head-timestamp invariant: whenever `start_time` is set, `times` is
non-empty and its first entry carries the `start_time` timestamp. -/
def headTsInv (s : Stopwatch) : Prop :=
  ∀ t, s.start_time = some t →
    s.times ≠ [] ∧ s.times.head?.map Prod.snd = some t

/-- Every reachable state satisfies the head-timestamp invariant. -/
theorem reachable_headTsInv (s : Stopwatch) (h : Reachable s) : headTsInv s := by
  induction h with
  | construct auto now =>
      intro t ht
      cases auto <;>
        simp_all [Stopwatch.construct, Stopwatch.start, Stopwatch.reset,
          Stopwatch.initState]
  | step s c now _ ih =>
      intro t ht
      cases c with
      | start fr =>
          simp only [step] at ht ⊢
          cases hse : s.start now fr with
          | error e =>
              simp only [hse] at ht ⊢
              exact ih t ht
          | ok s2 =>
              simp only [hse] at ht ⊢
              rw [Stopwatch.start] at hse
              split at hse
              · exact absurd hse (by simp)
              · rename_i hc
                cases fr with
                | true =>
                    simp only [Stopwatch.reset, Stopwatch.initState] at hse
                    injection hse with hse
                    subst hse
                    simp_all
                | false =>
                    have hnil : s.times = [] := by
                      by_contra hne
                      exact hc ⟨hne, rfl⟩
                    simp only [Except.ok.injEq] at hse
                    rw [if_neg (by simp)] at hse
                    subst hse
                    simp_all
      | lap lbl =>
          simp only [step, Stopwatch.lap] at ht ⊢
          obtain ⟨hne, hh⟩ := ih t ht
          cases hts : s.times with
          | nil => exact absurd hts hne
          | cons a l => simp_all
      | stop =>
          simp only [step, Stopwatch.stop] at ht ⊢
          cases hst : s.start_time with
          | none => simp_all
          | some u =>
              simp only [hst] at ht ⊢
              obtain ⟨hne, hh⟩ := ih u hst
              cases hts : s.times with
              | nil => exact absurd hts hne
              | cons a l => simp_all
      | reset =>
          simp [step, Stopwatch.reset, Stopwatch.initState] at ht

/-- C1: `start(force_reset=false)` on a watch with non-empty `times`
raises the already-running error and, under the step sem), leaves
`start_time`, `stop_time` and `times` exactly as they were. -/
theorem start_noReset_raises_atomically (s : Stopwatch) (now : Int)
    (h : s.times ≠ []) :
    s.start now false = Except.error Stopwatch.alreadyRunningOrUsedMsg ∧
    step s (Cmd.start false) now = s := by
  have he : s.start now false = Except.error Stopwatch.alreadyRunningOrUsedMsg := by
    rw [Stopwatch.start, if_pos ⟨h, rfl⟩]
  exact ⟨he, by simp [step, he]⟩

/-- Witness for C1 at a concrete started watch. -/
theorem start_noReset_raises_atomically_witness :
    (Stopwatch.construct true 0).times ≠ [] ∧
    ((Stopwatch.construct true 0).start 5 false =
        Except.error Stopwatch.alreadyRunningOrUsedMsg ∧
      step (Stopwatch.construct true 0) (Cmd.start false) 5 =
        Stopwatch.construct true 0) :=
  ⟨by decide, start_noReset_raises_atomically (Stopwatch.construct true 0) 5 (by decide)⟩

/-- C2: `lap` with an absent or empty label appends
`("Lap" ++ length of times before the append, now)`; a non-empty label is
appended verbatim with the current timestamp. -/
theorem lap_label_resolution (s : Stopwatch) (now : Int) :
    (s.lap now none).times =
      s.times ++ [("Lap" ++ toString s.times.length, now)] ∧
    (s.lap now (some "")).times =
      s.times ++ [("Lap" ++ toString s.times.length, now)] ∧
    ∀ l : String, l ≠ "" → (s.lap now (some l)).times = s.times ++ [(l, now)] := by
  refine ⟨rfl, by simp [Stopwatch.lap], fun l hl => by simp [Stopwatch.lap, hl]⟩

/-- Witness for C2: first unlabeled lap after a plain start is "Lap1", a
lap on a fresh unstarted watch is "Lap0", and a supplied non-empty label is
used verbatim. -/
theorem lap_label_resolution_witness :
    ((Stopwatch.construct true 0).lap 1 none).times =
      [("Start", 0), ("Lap1", 1)] ∧
    ((Stopwatch.construct false 0).lap 1 none).times = [("Lap0", 1)] ∧
    ("Checkpoint" ≠ "" ∧
      ((Stopwatch.construct true 0).lap 2 (some "Checkpoint")).times =
        [("Start", 0), ("Checkpoint", 2)]) := by
  refine ⟨?_, ?_, by decide, ?_⟩
  · have h := (lap_label_resolution (Stopwatch.construct true 0) 1).1
    simpa using h
  · have h := (lap_label_resolution (Stopwatch.construct false 0) 1).1
    simpa using h
  · have h := (lap_label_resolution (Stopwatch.construct true 0) 2).2.2
      "Checkpoint" (by decide)
    simpa using h

/-- C3: `elapsed_time_` returns `stop_time - start_time` when both are
set, and `none` (no error) when either is unset. -/
theorem elapsed_time_spec (s : Stopwatch) :
    (∀ a b, s.start_time = some a → s.stop_time = some b →
      s.elapsed_time_ = some (b - a)) ∧
    ((s.start_time = none ∨ s.stop_time = none) → s.elapsed_time_ = none) := by
  constructor
  · intro a b ha hb
    simp [Stopwatch.elapsed_time_, ha, hb]
  · rintro (h | h) <;>
      [cases hb : s.stop_time; cases ha : s.start_time] <;>
      simp_all [Stopwatch.elapsed_time_]

/-- Witness for C3: a stopped session gives the difference, a fresh one
gives no value. -/
theorem elapsed_time_spec_witness :
    (Stopwatch.mk (some 2) [] (some 7)).elapsed_time_ = some 5 ∧
    Stopwatch.initState.elapsed_time_ = none :=
  ⟨(elapsed_time_spec (Stopwatch.mk (some 2) [] (some 7))).1 2 7 rfl rfl,
   (elapsed_time_spec Stopwatch.initState).2 (Or.inl rfl)⟩

/-- C4: `stop` on a never-started watch prints "Timer not started." and
leaves the state unchanged; on a started watch it records `now` as
`stop_time` and appends `("Stop", now)`. -/
theorem stop_spec (s : Stopwatch) (now : Int) :
    (s.start_time = none → s.stop now = (s, some "Timer not started.")) ∧
    (∀ t, s.start_time = some t →
      s.stop now =
        ({ s with stop_time := some now,
                  times := s.times ++ [("Stop", now)] }, none)) := by
  constructor
  · intro h
    simp [Stopwatch.stop, h]
  · intro t h
    simp [Stopwatch.stop, h]

/-- Witness for C4 on a fresh watch and on a started watch. -/
theorem stop_spec_witness :
    Stopwatch.initState.stop 9 = (Stopwatch.initState, some "Timer not started.") ∧
    (Stopwatch.construct true 0).stop 9 =
      ({ Stopwatch.construct true 0 with
          stop_time := some 9,
          times := (Stopwatch.construct true 0).times ++ [("Stop", 9)] }, none) :=
  ⟨(stop_spec Stopwatch.initState 9).1 rfl,
   (stop_spec (Stopwatch.construct true 0) 9).2 0 (by decide)⟩

/-- C5: `start(force_reset=true)` from any state clears everything, then
records `now`: the result is exactly
`⟨start_time = now, times = [("Start", now)], stop_time = none⟩`. -/
theorem start_forceReset_resets_then_starts (s : Stopwatch) (now : Int) :
    s.start now true = Except.ok ⟨some now, [("Start", now)], none⟩ := by
  rw [Stopwatch.start, if_neg (by simp)]
  rfl

/-- C6: `reset` from any state yields exactly a freshly constructed
`auto_start=false` instance: all three fields at their defaults. -/
theorem reset_eq_fresh_construct (s : Stopwatch) (now : Int) :
    s.reset = Stopwatch.construct false now ∧
    s.reset.start_time = none ∧ s.reset.stop_time = none ∧ s.reset.times = [] :=
  ⟨rfl, rfl, rfl, rfl⟩

/-- C7 counterexample: `lap()` on a watch constructed with
`auto_start=False` reaches a state whose `times` is non-empty (first entry
timestamp 0) while `start_time` is still absent, so `start_time` does not
equal the first entry's timestamp there. -/
theorem start_time_head_counterexample :
    Reachable unstartedLapState ∧
    unstartedLapState.times ≠ [] ∧
    unstartedLapState.times.head?.map Prod.snd = some 0 ∧
    unstartedLapState.start_time ≠ some 0 :=
  ⟨Reachable.step (Stopwatch.construct false 0) (Cmd.lap none) 0
      (Reachable.construct false 0),
    by decide, by decide, by decide⟩

/-- C7 (amended): in every reachable state, whenever `times` is non-empty
AND `start_time` is set, `start_time` equals the timestamp of the first
entry of `times`. -/
theorem reachable_start_time_eq_head (s : Stopwatch) (h : Reachable s)
    (t : Int) (ht : s.start_time = some t) :
    s.times ≠ [] ∧ s.times.head?.map Prod.snd = some t :=
  reachable_headTsInv s h t ht

/-- Witness for the amended C7 at an auto-started watch. -/
theorem reachable_start_time_eq_head_witness :
    Reachable (Stopwatch.construct true 5) ∧
    (Stopwatch.construct true 5).start_time = some 5 ∧
    ((Stopwatch.construct true 5).times ≠ [] ∧
      (Stopwatch.construct true 5).times.head?.map Prod.snd = some 5) :=
  ⟨Reachable.construct true 5, by decide,
    reachable_start_time_eq_head (Stopwatch.construct true 5)
      (Reachable.construct true 5) 5 (by decide)⟩

/-- C8: on a non-empty `times`, `display_laps` with `show_stop=false`
plots/tabulates exactly `times` with its last element removed (purely
positional), and with `show_stop=true` exactly all of `times`; in
raw-timestamp mode the rendering always happens with exactly those
entries. -/
theorem display_show_stop_positional (s : Stopwatch) (h : s.times ≠ [])
    (figsize : Nat × Nat) (met annotate verbose vlines : Bool)
    (styles : List String) :
    (∀ es, ((s.display_laps figsize met false annotate verbose vlines
        styles).2).entries = some es → es = s.times.dropLast) ∧
    (∀ es, ((s.display_laps figsize met true annotate verbose vlines
        styles).2).entries = some es → es = s.times) ∧
    (s.display_laps figsize false false annotate verbose vlines styles).2 =
      DisplayResult.renderedRaw s.times.dropLast ∧
    (s.display_laps figsize false true annotate verbose vlines styles).2 =
      DisplayResult.renderedRaw s.times := by
  refine ⟨?_, ?_, ?_, ?_⟩ <;>
    [skip; skip;
      simp [Stopwatch.display_laps, h]; simp [Stopwatch.display_laps, h]]
  all_goals
    intro es hes
    simp only [Stopwatch.display_laps, if_neg h] at hes
    cases met with
    | false => simp_all [DisplayResult.entries]
    | true =>
        cases hx : Stopwatch.xCoords s.start_time s.times.dropLast <;>
          cases hx2 : Stopwatch.xCoords s.start_time s.times <;>
          simp_all [DisplayResult.entries]

/-- Witness for C8 on the spec's four-entry scenario: `show_stop=false`
keeps only the first three entries. -/
theorem display_show_stop_positional_witness :
    fourEntry.times ≠ [] ∧
    (fourEntry.display_laps (8, 4) false false true true true []).2 =
      DisplayResult.renderedRaw [("Start", 0), ("Lap1", 1), ("Checkpoint", 2)] := by
  have h := (display_show_stop_positional fourEntry (by decide) (8, 4)
    false true true true []).2.2.1
  exact ⟨by decide, by rw [h]; decide⟩

/-- C9: `display_laps` never mutates the stopwatch — for every state and
every combination of options, the state after the call is the state
before. -/
theorem display_laps_pure (s : Stopwatch) (figsize : Nat × Nat)
    (met ss annotate verbose vlines : Bool) (styles : List String) :
    (s.display_laps figsize met ss annotate verbose vlines styles).1 = s := by
  rw [Stopwatch.display_laps]
  repeat' split
  all_goals try rfl
  all_goals
    dsimp only
    split <;> rfl

/-- C10: elapsed-time mode subtracts `start_time` unguarded: whenever
`start_time` is set the computation is well-defined (never the
`TypeError` outcome), yet a state with non-empty `times` and absent
`start_time` is reachable at the public interface, and there the default
`display_laps` call hits the `TypeError`. -/
theorem display_elapsed_unguarded_subtraction :
    (∀ (s : Stopwatch) (t : Int) (figsize : Nat × Nat)
        (ss annotate verbose vlines : Bool) (styles : List String),
      s.start_time = some t →
      (s.display_laps figsize true ss annotate verbose vlines styles).2 ≠
        DisplayResult.typeError) ∧
    (Reachable unstartedLapState ∧ unstartedLapState.times ≠ [] ∧
      unstartedLapState.start_time = none ∧
      (unstartedLapState.display_laps (8, 4) true true true true true
        ["ggplot", "seaborn-talk"]).2 = DisplayResult.typeError) := by
  constructor
  · intro s t figsize ss annotate verbose vlines styles ht
    rw [Stopwatch.display_laps]
    split
    · simp
    · rw [ht]
      cases ss <;> simp [xCoords_of_start_set]
  · exact ⟨Reachable.step (Stopwatch.construct false 0) (Cmd.lap none) 0
        (Reachable.construct false 0),
      by decide, by decide, by decide⟩

/-- Witness for C10's universal part at a started watch. -/
theorem display_elapsed_unguarded_subtraction_witness :
    (Stopwatch.construct true 0).start_time = some 0 ∧
    ((Stopwatch.construct true 0).display_laps (8, 4) true true true true
      true []).2 ≠ DisplayResult.typeError :=
  ⟨by decide,
    display_elapsed_unguarded_subtraction.1 (Stopwatch.construct true 0) 0
      (8, 4) true true true true [] (by decide)⟩
